import Mathlib

/-!
Verification of the AM43 MQTT/BLE bridge sketch (`examples/MQTTBlinds/MQTTBlinds.ino`).

The sketch is shallowly embedded: the global mutable state (the `allClients`
map, the `scanning` flag, `lastScan`, `otaUpdating`, plus the set of
heap-allocated per-device objects) becomes the structure `SysState`; the
callbacks (`MyAdvertisedDeviceCallbacks::onResult`, `MyAM43Callbacks::onDisconnect`,
`MyAM43Callbacks::handle`, `mqtt_callback`) and the phases of `loop()` become
pure functions from state to state, returning in addition the list of observable
side effects (MQTT publishes, BLE session calls, the restart signal) in the
order the sketch performs them.  Arduino `String` operations (`indexOf`,
`substring`, `toLowerCase`, `toInt`) are reproduced with their exact semantics,
including the cast of negative `indexOf` results to 32-bit unsigned in
`substring`.
-/

namespace AM43

/-- Observable side effects of the sketch, in program order.  `publish t p r`
is `PubSubClient::publish(t, p, r)`; `busLoop`/`busDisconnect`/`busConnectAttempt`/
`subscribeTopic` are the per-device `PubSubClient` calls; `opOpen`..`opSetPos`
are the `AM43Client` command methods invoked by the MQTT dispatch loop;
`sessionConnect`/`sessionPoll` are `connectToServer`/`update`; `scanStopEvt` is
`BLEDevice::getScan()->stop()`; `espRestart` is `ESP.restart()`. -/
inductive OutEvent where
  | publish (topic payload : String) (retained : Bool)
  | subscribeTopic (topic : String)
  | busLoop (addr : String)
  | busDisconnect (addr : String)
  | busConnectAttempt (addr : String)
  | opOpen (addr : String)
  | opClose (addr : String)
  | opStop (addr : String)
  | opSetPos (addr : String) (pos : Int)
  | sessionConnect (key : String)
  | sessionPoll (key : String)
  | scanStopEvt
  | espRestart
  deriving DecidableEq

/-- The fields of the library class `AM43Client` that the sketch reads or
writes: the connect-request flag, the two connection-state flags and the
advertised name, plus the device address (`m_Device->getAddress().toString()`). -/
structure AM43Client where
  m_DoConnect : Bool
  m_Connected : Bool
  m_Disconnected : Bool
  m_Name : String
  address : String
  deriving DecidableEq

/-- State of a per-device `PubSubClient` sub-session. -/
structure PubSubBinding where
  connected : Bool
  deriving DecidableEq

/-- Model of `MyAM43Callbacks`: the per-device record stored in `allClients`.  `mqtt`
is `none` exactly when the member pointer is `nullptr` (it is set in
`onConnect` and cleared in `onDisconnect`). -/
structure MyAM43Callbacks where
  client : AM43Client
  mqtt : Option PubSubBinding
  nextMqttAttempt : Nat
  deriving DecidableEq

/-- A BLE advertisement as seen by `MyAdvertisedDeviceCallbacks::onResult`:
`devString` is `advertisedDevice.toString()` (the registry key), `address` is
`getAddress().toString()`, and the two flags are `haveServiceUUID()` and
`isAdvertisingService(serviceUUID)`. -/
structure BLEAdvertisedDevice where
  devString : String
  address : String
  name : String
  haveServiceUUID : Bool
  advertisesAM43Service : Bool
  deriving DecidableEq

/-- The sketch's global mutable state.  `clients` is the `allClients` map
(association list in `std::map` iteration order), `heapAlloc` records the keys
of the `AM43Client`/`MyAM43Callbacks` objects allocated with `new` in
`onResult` and not yet freed (the sketch has no matching `delete`). -/
structure SysState where
  clients : List (String × MyAM43Callbacks)
  scanning : Bool
  scanStopped : Bool
  lastScan : Nat
  otaUpdating : Bool
  heapAlloc : List String
  deriving DecidableEq

/-- Initial global state: empty `allClients`, `scanning = false`, `lastScan = 0`,
`otaUpdating = false`. -/
def emptyState : SysState :=
  { clients := [], scanning := false, scanStopped := false, lastScan := 0,
    otaUpdating := false, heapAlloc := [] }

/-- External inputs read by the loop body: Wi-Fi status, `millis()`, and the
success of the (opaque) bus / BLE connection attempts. -/
structure Env where
  wifiConnected : Bool
  now : Nat
  mqttConnectOk : Bool
  bleConnectOk : Bool

/-! ### Arduino `String` semantics -/

/-- ASCII `tolower`, as applied by `String::toLowerCase`. -/
def asciiToLower (c : Char) : Char :=
  if 'A' ≤ c ∧ c ≤ 'Z' then Char.ofNat (c.toNat + 32) else c

/-- Lowercase a whole string (`payload.toLowerCase()`). -/
def strToLower (s : String) : String :=
  String.mk (s.data.map asciiToLower)

/-- Helper for `strIndexOfFrom`: scan a character list, reporting the absolute
index of the first occurrence, `-1` if absent. -/
def strIndexOfAux (c : Char) : List Char → Nat → Int
  | [], _ => -1
  | d :: ds, i => if d == c then Int.ofNat i else strIndexOfAux c ds (i + 1)

/-- Arduino `String::indexOf(ch, fromIndex)`: first index of `c` at or after
`start`, `-1` if not found. -/
def strIndexOfFrom (s : String) (c : Char) (start : Nat) : Int :=
  strIndexOfAux c (s.data.drop start) start

/-- Cast an `int` to C `unsigned int` (32 bits), as happens when the result of
`indexOf` is passed to `substring`. -/
def u32ofInt (i : Int) : Nat :=
  (i % (4294967296 : Int)).toNat

/-- Arduino `String::substring(left, right)`: swaps the bounds if
`left > right`, clamps `right` to the length, returns the characters in
`[left, right)`. -/
def arduinoSubstring (s : String) (l r : Nat) : String :=
  let left := min l r
  let right := min (max l r) s.data.length
  if left ≥ s.data.length then "" else String.mk ((s.data.take right).drop left)

/-- Digit-run accumulator for `atol`. -/
def atolDigits : List Char → Int → Int
  | c :: cs, acc =>
      if '0' ≤ c ∧ c ≤ '9' then
        atolDigits cs (acc * 10 + (Int.ofNat c.toNat - Int.ofNat '0'.toNat))
      else acc
  | [], acc => acc

/-- Arduino `String::toInt` (C `atol`): skip leading whitespace, optional
sign, then the longest digit run; `0` when there are no digits. -/
def arduinoToInt (s : String) : Int :=
  let cs := s.data.dropWhile (fun c => c == ' ' || c == '\t' || c == '\n' || c == '\r')
  match cs with
  | '-' :: rest => - atolDigits rest 0
  | '+' :: rest => atolDigits rest 0
  | _ => atolDigits cs 0

/-! ### Topic construction and parsing -/

/-- Model of `MyAM43Callbacks::topic(t)`: `sprintf("%s/%s/%s", MQTT_TOPIC_PREFIX,
address, t)` with the default prefix `am43` and the default (address-based)
topic naming. -/
def amTopic (c : AM43Client) (t : String) : String :=
  "am43/" ++ c.address ++ "/" ++ t

/-- The topic-splitting prologue of `mqtt_callback` (lines 156-160): the
substring between the first two slashes is the address, everything after the
second slash is the command.  `i2 = -1` flows through the unsigned cast in
`substring`, exactly as in the sketch. -/
def parseTopic (top : String) : String × String :=
  let i1 := strIndexOfFrom top '/' 0
  let i2 := strIndexOfFrom top '/' (Int.toNat (i1 + 1))
  let address := arduinoSubstring top (u32ofInt (i1 + 1)) (u32ofInt i2)
  let command := arduinoSubstring top (u32ofInt (i2 + 1)) top.data.length
  (address, command)

/-! ### Per-device callbacks -/

/-- Model of `MyAM43Callbacks::onDisconnect` (lines 95-104): if the per-device bus
client exists and is connected, publish retained `available=offline`, run its
loop and disconnect it; in every case null out the `mqtt` pointer. -/
def onDisconnect (cbs : MyAM43Callbacks) : MyAM43Callbacks × List OutEvent :=
  let outs :=
    match cbs.mqtt with
    | some b =>
        if b.connected then
          [OutEvent.publish (amTopic cbs.client "available") "offline" true,
           OutEvent.busLoop cbs.client.address,
           OutEvent.busDisconnect cbs.client.address]
        else []
    | none => []
  ({ cbs with mqtt := none }, outs)

/-- Model of `MyAM43Callbacks::handle` (lines 106-124): service the per-device bus
client; when it is present but unconnected (and Wi-Fi is up and the 5-second
retry gate has passed) attempt to connect it, on success publishing retained
`available=online` and subscribing to the device's `set`/`set_position`
topics. -/
def handle (env : Env) (cbs : MyAM43Callbacks) : MyAM43Callbacks × List OutEvent :=
  match cbs.mqtt with
  | none => (cbs, [])
  | some b =>
      if b.connected then (cbs, [OutEvent.busLoop cbs.client.address])
      else if !env.wifiConnected || env.now < cbs.nextMqttAttempt then (cbs, [])
      else if !env.mqttConnectOk then
        ({ cbs with nextMqttAttempt := env.now + 5000 },
         [OutEvent.busConnectAttempt cbs.client.address])
      else
        ({ cbs with mqtt := some { connected := true } },
         [OutEvent.busConnectAttempt cbs.client.address,
          OutEvent.publish (amTopic cbs.client "available") "online" true,
          OutEvent.subscribeTopic (amTopic cbs.client "set"),
          OutEvent.subscribeTopic (amTopic cbs.client "set_position"),
          OutEvent.busLoop cbs.client.address])

/-! ### MQTT command routing (`mqtt_callback`, lines 150-189) -/

/-- Model of `getClients()` (lines 129-136): a defensive copy of the `allClients` map,
taken under the semaphore.  In the sequential embedding it is the current map
value. -/
def getClients (st : SysState) : List (String × MyAM43Callbacks) :=
  st.clients

/-- The body of the dispatch loop of `mqtt_callback` for one record
(lines 171-188): match on address (or the `all` wildcard), then run the `set`
payload comparisons and the `set_position` parse. -/
def dispatchOne (address command payloadLower : String) (pos : Int)
    (cbs : MyAM43Callbacks) : List OutEvent :=
  if cbs.client.address == address || address == "all" then
    (if command == "set" then
      (if payloadLower == "open" then [OutEvent.opOpen cbs.client.address] else []) ++
      (if payloadLower == "close" then [OutEvent.opClose cbs.client.address] else []) ++
      (if payloadLower == "stop" then [OutEvent.opStop cbs.client.address] else [])
    else []) ++
    (if command == "set_position" then
      [OutEvent.opSetPos cbs.client.address pos] else [])
  else []

/-- Model of `mqtt_callback` (lines 150-189): parse the topic; the reserved address
`restart` runs `onDisconnect` on every record of the snapshot and then signals
`ESP.restart()`; otherwise every matching record gets the decoded command. -/
def mqtt_callback (st : SysState) (top payload : String) :
    SysState × List OutEvent :=
  let pc := parseTopic top
  let address := pc.1
  let command := pc.2
  let cls := getClients st
  if address == "restart" then
    ({ st with clients := cls.map (fun kc => (kc.1, (onDisconnect kc.2).1)) },
     List.flatten (cls.map (fun kc => (onDisconnect kc.2).2)) ++ [OutEvent.espRestart])
  else
    (st,
     List.flatten (cls.map (fun kc =>
       dispatchOne address command (strToLower payload) (arduinoToInt payload) kc.2)))

/-! ### Discovery (`isAllowed`, `onResult`, lines 210-254) -/

/-- Model of `isAllowed` (lines 210-216): an empty allow-list admits every address,
otherwise the address must equal (`BLEAddress::equals`) one of the entries. -/
def isAllowed (allowList : List String) (address : String) : Bool :=
  if allowList.length < 1 then true
  else allowList.any (fun a => a == address)

/-- Model of `MyAdvertisedDeviceCallbacks::onResult` (lines 225-253): ignore
advertisements without the AM43 service; ignore devices already present in the
snapshot (matched by `toString()`); ignore devices outside the allow-list;
otherwise allocate a new `AM43Client` (with `m_DoConnect = true`) and
`MyAM43Callbacks`, insert them under the semaphore, stop the scan and clear
`scanning`. -/
def onResult (allowList : List String) (st : SysState) (dev : BLEAdvertisedDevice) :
    SysState × List OutEvent :=
  if dev.haveServiceUUID && dev.advertisesAM43Service then
    if (getClients st).any (fun kc => kc.1 == dev.devString) then (st, [])
    else if !(isAllowed allowList dev.address) then (st, [])
    else
      let newClient : AM43Client :=
        { m_DoConnect := true, m_Connected := false, m_Disconnected := false,
          m_Name := dev.name, address := dev.address }
      let cbs : MyAM43Callbacks := { client := newClient, mqtt := none, nextMqttAttempt := 0 }
      ({ st with clients := st.clients ++ [(dev.devString, cbs)],
                 heapAlloc := st.heapAlloc ++ [dev.devString],
                 scanning := false, scanStopped := true },
       [OutEvent.scanStopEvt])
  else (st, [])

/-- An arbitrary sequence of discovery callbacks applied in order (duplicate
sightings, several scans). -/
def processDiscovery (allowList : List String) (st : SysState) :
    List BLEAdvertisedDevice → SysState
  | [] => st
  | d :: ds => processDiscovery allowList (onResult allowList st d).1 ds

/-- Model of `initBLEScan` (lines 261-273): set `scanning` and start a fresh scan, so
results can be delivered again. -/
def initBLEScan (st : SysState) : SysState :=
  { st with scanning := true, scanStopped := false }

/-- Model of `bleScanComplete` (lines 256-259): the scan-completion callback clears the
`scanning` guard. -/
def bleScanComplete (st : SysState) : SysState :=
  { st with scanning := false }

/-- One scan invocation delivering the advertisements `ds` in order: once
`BLEDevice::getScan()->stop()` has been requested (by an inserting
`onResult`), no further result of this scan is delivered. -/
def runScan (allowList : List String) (st : SysState) :
    List BLEAdvertisedDevice → SysState
  | [] => st
  | d :: ds => if st.scanStopped then st else runScan allowList (onResult allowList st d).1 ds

/-! ### The driver loop (`loop`, lines 379-421) -/

/-- Modelled from the spec: `AM43Client::connectToServer` is library code not
under `src/`.  Per spec section 4.2, Connecting→Connected on success — side
effect `MyAM43Callbacks::onConnect` (lines 87-94) opens the per-device bus
sub-binding, still unconnected, and resets its retry gate — while on failure
the record stays Discovered and is retried on a later tick. -/
def connectToServer (ok : Bool) (cbs : MyAM43Callbacks) : MyAM43Callbacks :=
  if ok then
    { cbs with
        client := { cbs.client with m_DoConnect := false, m_Connected := true },
        mqtt := some { connected := false },
        nextMqttAttempt := 0 }
  else cbs

/-- Result of the per-client iteration of `loop`: the updated records, the
side effects, and the keys queued on `removeList`. -/
structure DriveResult where
  clients : List (String × MyAM43Callbacks)
  outs : List OutEvent
  removeList : List String
  deriving DecidableEq

/-- The non-connecting part of one iteration of the `loop` body
(lines 398-401): a connected record is polled (`update()`) and its bus
sub-binding serviced (`handle()`). -/
def driveStep (env : Env) (k : String) (c : MyAM43Callbacks) :
    MyAM43Callbacks × List OutEvent :=
  if c.client.m_Connected then
    ((handle env c).1, OutEvent.sessionPoll k :: (handle env c).2)
  else (c, [])

/-- The whole per-client iteration of `loop` (lines 393-403): connect the
first record with `m_DoConnect` set when no scan is running and `break`
(skipping the rest of this tick's iteration); otherwise run `driveStep` and
queue records observed with `m_Disconnected` on `removeList`. -/
def drivePhase (env : Env) (scanning : Bool) :
    List (String × MyAM43Callbacks) → DriveResult
  | [] => ⟨[], [], []⟩
  | (k, c) :: rest =>
    if c.client.m_DoConnect && !scanning then
      ⟨(k, connectToServer env.bleConnectOk c) :: rest, [OutEvent.sessionConnect k], []⟩
    else
      let stepped := driveStep env k c
      let rm := if stepped.1.client.m_Disconnected then [k] else []
      let next := drivePhase env scanning rest
      ⟨(k, stepped.1) :: next.clients, stepped.2 ++ next.outs, rm ++ next.removeList⟩

/-- Model of `std::map::erase(key)` on the association list. -/
def eraseKey (m : List (String × MyAM43Callbacks)) (k : String) :
    List (String × MyAM43Callbacks) :=
  m.filter (fun kc => !(kc.1 == k))

/-- The 500 ms AM43 block of `loop` (lines 389-412): run the per-client
iteration, then erase every key on `removeList` under the semaphore.  The
erase only removes the map entry; the objects allocated in `onResult` are not
freed, so `heapAlloc` is untouched. -/
def am43UpdatePhase (env : Env) (st : SysState) : SysState × List OutEvent :=
  let r := drivePhase env st.scanning (getClients st)
  ({ st with clients := r.removeList.foldl eraseKey r.clients }, r.outs)

/-- Unsigned 32-bit subtraction, the semantics of `millis() - lastScan` on
`unsigned long`. -/
def u32sub (a b : Nat) : Nat :=
  ((a % 4294967296) + 4294967296 - (b % 4294967296)) % 4294967296

/-- The scan-start condition of `loop` (line 414):
`millis() - lastScan > 60000 && !otaUpdating`. -/
def scanDue (now : Nat) (st : SysState) : Bool :=
  decide (60000 < u32sub now st.lastScan) && !st.otaUpdating

/-- The scan-start block of `loop` (lines 413-417): when due, call
`initBLEScan` and reset `lastScan`; returns whether a scan was started. -/
def scanStartPhase (now : Nat) (st : SysState) : SysState × Bool :=
  if scanDue now st then (initBLEScan { st with lastScan := now }, true)
  else (st, false)

/-! ### Event classifiers -/

/-- Events that are `AM43Client::connectToServer` calls. -/
def isSessionConnect : OutEvent → Bool
  | OutEvent.sessionConnect _ => true
  | _ => false

/-- Events that are device-command invocations on an `AM43Client`
(`open`/`close`/`stop`/`setPosition`). -/
def isDeviceCommand : OutEvent → Bool
  | OutEvent.opOpen _ => true
  | OutEvent.opClose _ => true
  | OutEvent.opStop _ => true
  | OutEvent.opSetPos _ _ => true
  | _ => false

/-- Events that publish a retained `offline` payload. -/
def isOfflinePublish : OutEvent → Bool
  | OutEvent.publish _ p r => p == "offline" && r
  | _ => false

/-- Events that disconnect a per-device bus sub-binding. -/
def isBusDisconnect : OutEvent → Bool
  | OutEvent.busDisconnect _ => true
  | _ => false

/-- Whether a record currently owns a connected bus sub-binding (the guard of
`onDisconnect`, line 97). -/
def hasConnectedBinding (cbs : MyAM43Callbacks) : Bool :=
  match cbs.mqtt with
  | some b => b.connected
  | none => false

/-! ### Lock traces

The semaphore discipline of the sketch, event by event: `take`/`give` are
`clientListSem.take`/`clientListSem.give`; `reg` is an access to the shared
`allClients` map; `blockingCall` is a call into a `PubSubClient`, an
`AM43Client` session, or the BLE scanner — the potentially blocking
operations.  Each trace below transcribes one execution context, parametrised
by the number of registry entries it touches. -/
inductive LockEv where
  | take
  | give
  | reg
  | blockingCall
  deriving DecidableEq

/-- Trace of `getClients()` (lines 129-136) on a map of `n` entries: the copy
loop runs entirely between `take` and `give`. -/
def getClientsTrace (n : Nat) : List LockEv :=
  LockEv.take :: (List.replicate n LockEv.reg ++ [LockEv.give])

/-- Trace of `notifyCallback` (lines 139-147): snapshot, then the session
notification dispatch outside the lock. -/
def notifyCallbackTrace (n : Nat) : List LockEv :=
  getClientsTrace n ++ [LockEv.blockingCall]

/-- Trace of the inserting path of `onResult` (lines 230-251): snapshot for
the duplicate check, then `take`/`insert`/`give`, then the scanner stop call
outside the lock. -/
def onResultInsertTrace (n : Nat) : List LockEv :=
  getClientsTrace n ++ [LockEv.take, LockEv.reg, LockEv.give, LockEv.blockingCall]

/-- Trace of the dispatch path of `mqtt_callback` (lines 163, 171-188):
snapshot, then `m` session-command calls outside the lock. -/
def mqttCallbackDispatchTrace (n m : Nat) : List LockEv :=
  getClientsTrace n ++ List.replicate m LockEv.blockingCall

/-- Trace of the restart path of `mqtt_callback` (lines 163-169): snapshot,
then the per-record bus teardown calls and the restart, all outside the
lock. -/
def mqttCallbackRestartTrace (n m : Nat) : List LockEv :=
  getClientsTrace n ++ List.replicate m LockEv.blockingCall ++ [LockEv.blockingCall]

/-- Trace of one AM43 block of `loop` (lines 389-409): snapshot, `m`
session/bus calls outside the lock, then one `take`/`erase`/`give` per entry
of `removeList`. -/
def loopTickTrace (n m r : Nat) : List LockEv :=
  getClientsTrace n ++ List.replicate m LockEv.blockingCall ++
    List.flatten (List.replicate r [LockEv.take, LockEv.reg, LockEv.give])

/-- The lock discipline checker, tracking the semaphore hold depth: every
registry access must happen while the lock is held, and no potentially
blocking call may happen while it is held. -/
def lockOk : Nat → List LockEv → Bool
  | _, [] => true
  | d, LockEv.take :: tr => lockOk (d + 1) tr
  | d, LockEv.give :: tr => decide (0 < d) && lockOk (d - 1) tr
  | d, LockEv.reg :: tr => decide (0 < d) && lockOk d tr
  | d, LockEv.blockingCall :: tr => decide (d = 0) && lockOk d tr

/-! ### Concrete devices and states used by the counterexamples and witnesses -/

/-- The advertisement of the device from the sketch's header comment. -/
def devA : BLEAdvertisedDevice :=
  { devString := "Name: AM43, Address: 02:69:32:f0:c5:1d", address := "02:69:32:f0:c5:1d",
    name := "AM43", haveServiceUUID := true, advertisesAM43Service := true }

/-- A second advertisement, for a different address. -/
def devC : BLEAdvertisedDevice :=
  { devString := "Name: AM43, Address: 11:22:33:44:55:66", address := "11:22:33:44:55:66",
    name := "AM43", haveServiceUUID := true, advertisesAM43Service := true }

/-- A two-entry allow-list containing `devA`'s address but not `devC`'s. -/
def allow2 : List String :=
  ["02:69:32:f0:c5:1d", "ff:ee:dd:cc:bb:aa"]

/-- A freshly discovered client: `m_DoConnect` set, not yet connected. -/
def c2Client : AM43Client :=
  { m_DoConnect := true, m_Connected := false, m_Disconnected := false,
    m_Name := "AM43", address := "02:69:32:f0:c5:1d" }

/-- Registry holding the single merely-Discovered record for `devA`. -/
def c2State : SysState :=
  { emptyState with
      clients := [(devA.devString, { client := c2Client, mqtt := none, nextMqttAttempt := 0 })] }

/-- A BLE-connected client. -/
def c3Client : AM43Client :=
  { m_DoConnect := false, m_Connected := true, m_Disconnected := false,
    m_Name := "AM43", address := "02:69:32:f0:c5:1d" }

/-- Registry holding one BLE-connected record whose per-device bus sub-binding
exists but has not (yet) connected — exactly the state `onConnect` leaves a
record in. -/
def c3State : SysState :=
  { emptyState with
      clients := [(devA.devString,
        { client := c3Client, mqtt := some { connected := false }, nextMqttAttempt := 0 })] }

/-- A fixed benign environment for concrete runs. -/
def envD : Env :=
  { wifiConnected := true, now := 0, mqttConnectOk := true, bleConnectOk := true }

/-- The state after `devA` is discovered from boot. -/
def c4Discovered : SysState := (onResult [] emptyState devA).1

/-- Modelled from the spec: the `AM43Client` library (not under `src/`)
reports a transport-level disconnect by clearing `m_Connected`, setting
`m_Disconnected` and firing the `onDisconnect` callback (spec section 4.2,
Connected→Disconnected). -/
def markBleDisconnected (st : SysState) (k : String) : SysState :=
  { st with clients := st.clients.map (fun kc =>
      if kc.1 == k then
        (kc.1, (onDisconnect { kc.2 with client :=
          { kc.2.client with m_DoConnect := false, m_Connected := false,
                             m_Disconnected := true } }).1)
      else kc) }

/-- State of `devA`'s record after its transport dropped: Disconnected, awaiting the
next driver tick. -/
def c4Disc : SysState := markBleDisconnected c4Discovered devA.devString

/-- A state in which a scan is still in progress. -/
def c8State : SysState := { emptyState with scanning := true }

/-! ### Helper lemmas -/

theorem flatten_map_singleton {α β : Type} (f : α → β) :
    ∀ l : List α, List.flatten (l.map (fun x => [f x])) = l.map f := by
  intro l
  induction l with
  | nil => rfl
  | cons x xs ih => simp [ih]

theorem dispatchOne_all_set_open (pos : Int) (cbs : MyAM43Callbacks) :
    dispatchOne "all" "set" "open" pos cbs = [OutEvent.opOpen cbs.client.address] := by
  simp [dispatchOne]

theorem onDisconnect_outs (cbs : MyAM43Callbacks) :
    (onDisconnect cbs).2
      = if hasConnectedBinding cbs then
          [OutEvent.publish (amTopic cbs.client "available") "offline" true,
           OutEvent.busLoop cbs.client.address,
           OutEvent.busDisconnect cbs.client.address]
        else [] := by
  rcases hm : cbs.mqtt with _ | b
  · simp [onDisconnect, hasConnectedBinding, hm]
  · rcases b with ⟨bc⟩
    cases bc <;> simp [onDisconnect, hasConnectedBinding, hm]

theorem onDisconnect_mqtt_none (cbs : MyAM43Callbacks) :
    (onDisconnect cbs).1.mqtt = none := rfl

theorem not_mem_keys_of_any_eq_false {m : List (String × MyAM43Callbacks)} {k : String}
    (h : m.any (fun kc => kc.1 == k) = false) : k ∉ m.map Prod.fst := by
  intro hk
  rcases List.mem_map.mp hk with ⟨kc, hmem, hfst⟩
  have hmk : m.any (fun kc => kc.1 == k) = true := by
    refine List.any_eq_true.mpr ⟨kc, hmem, ?_⟩
    simp [hfst]
  rw [h] at hmk
  exact Bool.false_ne_true hmk

theorem onResult_keys_nodup (allowList : List String) (st : SysState)
    (d : BLEAdvertisedDevice) (h : (st.clients.map Prod.fst).Nodup) :
    ((onResult allowList st d).1.clients.map Prod.fst).Nodup := by
  unfold onResult
  split
  · split
    · simpa using h
    · split
      · simpa using h
      · rename_i hsvc hany hallow
        have hany' : (getClients st).any (fun kc => kc.1 == d.devString) = false :=
          Bool.not_eq_true _ ▸ eq_false_of_ne_true hany
        have hnm : d.devString ∉ st.clients.map Prod.fst :=
          not_mem_keys_of_any_eq_false hany'
        simp only [List.map_append, List.map_cons, List.map_nil]
        rw [List.nodup_append]
        exact ⟨h, List.nodup_singleton _, by
          intro a ha hb
          rcases List.mem_singleton.mp hb with rfl
          exact hnm ha⟩
  · simpa using h

theorem processDiscovery_keys_nodup (allowList : List String)
    (ds : List BLEAdvertisedDevice) :
    ∀ st : SysState, (st.clients.map Prod.fst).Nodup →
      ((processDiscovery allowList st ds).clients.map Prod.fst).Nodup := by
  induction ds with
  | nil => intro st h; simpa [processDiscovery] using h
  | cons d ds ih =>
      intro st h
      exact ih _ (onResult_keys_nodup allowList st d h)

/-! ### The claims -/

/-- Claim C1: for every sequence of discovery events the registry never holds
two records with the same identifier, and an `onResult` for an identifier
already present is a complete no-op — same state, no side effect, no reset of
the existing record. -/
theorem C1_registry_uniqueness :
    (∀ (allowList : List String) (ds : List BLEAdvertisedDevice),
       ((processDiscovery allowList emptyState ds).clients.map Prod.fst).Nodup)
    ∧ (∀ (allowList : List String) (st : SysState) (d : BLEAdvertisedDevice),
       (getClients st).any (fun kc => kc.1 == d.devString) = true →
       onResult allowList st d = (st, [])) := by
  constructor
  · intro allowList ds
    exact processDiscovery_keys_nodup allowList ds emptyState (by simp [emptyState])
  · intro allowList st d h
    simp [onResult, h]

/-- Witness for C1 at a concrete input: a second sighting of `devA` while its
record is registered changes nothing. -/
theorem C1_registry_uniqueness_witness :
    onResult [] c2State devA = (c2State, []) :=
  C1_registry_uniqueness.2 [] c2State devA (by decide)

/-- Claim C2, counterexample: with a registry holding one record that is
merely Discovered (`m_Connected = false`, `m_Disconnected = false`), the
message `set`/`all`/`OPEN` still invokes `open` on that record's session —
the router never checks the connection state. -/
theorem C2_counterexample :
    c2Client.m_Connected = false ∧ c2Client.m_Disconnected = false
    ∧ (mqtt_callback c2State "am43/all/set" "OPEN").2
        = [OutEvent.opOpen "02:69:32:f0:c5:1d"] := by decide

/-- Claim C2 as amended: a `set` command to target `all` with payload `OPEN`
(case-insensitive) invokes `open` on the session of every registered record —
Connected ones included — regardless of its connection state. -/
theorem C2_dispatch_all_amended (st : SysState) (payload : String)
    (h : strToLower payload = "open") :
    (mqtt_callback st "am43/all/set" payload).2
      = st.clients.map (fun kc => OutEvent.opOpen kc.2.client.address) := by
  have hp : parseTopic "am43/all/set" = ("all", "set") := by decide
  simp only [mqtt_callback, hp, getClients, h]
  norm_num
  rw [show (List.map (fun kc : String × MyAM43Callbacks =>
      dispatchOne "all" "set" "open" (arduinoToInt payload) kc.2) st.clients)
      = st.clients.map (fun kc => [OutEvent.opOpen kc.2.client.address]) from
    List.map_congr_left (fun kc _ => dispatchOne_all_set_open _ _)]
  exact flatten_map_singleton _ st.clients

/-- Witness for the amended C2 at a concrete input. -/
theorem C2_dispatch_all_amended_witness :
    (mqtt_callback c2State "am43/all/set" "OPEN").2
      = c2State.clients.map (fun kc => OutEvent.opOpen kc.2.client.address) :=
  C2_dispatch_all_amended c2State "OPEN" (by decide)

/-- Claim C9: running the disconnect path twice on the same record is
idempotent — the second call changes nothing and emits nothing, and across
both calls the retained `offline` publish and the bus-binding disconnect each
happen exactly once when the record held a connected binding and never
otherwise. -/
theorem C9_idempotent_teardown (cbs : MyAM43Callbacks) :
    (onDisconnect (onDisconnect cbs).1).1 = (onDisconnect cbs).1
    ∧ (onDisconnect (onDisconnect cbs).1).2 = []
    ∧ ((onDisconnect cbs).2 ++ (onDisconnect (onDisconnect cbs).1).2).countP isOfflinePublish
        = (if hasConnectedBinding cbs then 1 else 0)
    ∧ ((onDisconnect cbs).2 ++ (onDisconnect (onDisconnect cbs).1).2).countP isBusDisconnect
        = (if hasConnectedBinding cbs then 1 else 0) := by
  rcases cbs with ⟨cl, mq, na⟩
  rcases mq with _ | ⟨⟨bc⟩⟩
  · simp [onDisconnect, hasConnectedBinding, List.countP_nil]
  · cases bc <;>
      simp [onDisconnect, hasConnectedBinding, List.countP_cons, List.countP_nil,
        isOfflinePublish, isBusDisconnect]

theorem mqtt_callback_restart (st : SysState) (payload : String) :
    mqtt_callback st "am43/restart" payload
      = ({ st with clients := st.clients.map (fun kc => (kc.1, (onDisconnect kc.2).1)) },
         List.flatten (st.clients.map (fun kc => (onDisconnect kc.2).2))
           ++ [OutEvent.espRestart]) := by
  have hp : parseTopic "am43/restart" = ("restart", "am43/restart") := by decide
  simp [mqtt_callback, hp, getClients]

/-- Claim C3, counterexample: a record that is BLE-Connected but whose bus
sub-binding is not (yet) connected — the state every record is in right after
`onConnect` — publishes nothing on restart: the only output of the restart
message is the restart signal itself, although the claim requires an
`available=offline` publish for every Connected record. -/
theorem C3_counterexample :
    c3Client.m_Connected = true
    ∧ (mqtt_callback c3State "am43/restart" "x").2 = [OutEvent.espRestart] := by decide

/-- Claim C3 as amended: a message on the restart topic, whatever its payload,
makes every record whose bus sub-binding is currently connected publish
retained `available=offline` and disconnect that binding (best-effort:
records whose binding is absent or down publish nothing); every record's
binding is cleared; the restart signal comes after all of this; and no
per-device command is dispatched. -/
theorem C3_restart_amended (st : SysState) (payload : String) :
    (mqtt_callback st "am43/restart" payload).2
      = List.flatten (st.clients.map (fun kc =>
          if hasConnectedBinding kc.2 then
            [OutEvent.publish (amTopic kc.2.client "available") "offline" true,
             OutEvent.busLoop kc.2.client.address,
             OutEvent.busDisconnect kc.2.client.address]
          else [])) ++ [OutEvent.espRestart]
    ∧ ((mqtt_callback st "am43/restart" payload).1.clients.all
        (fun kc => kc.2.mqtt == none)) = true
    ∧ ((mqtt_callback st "am43/restart" payload).2.all
        (fun e => !isDeviceCommand e)) = true := by
  refine ⟨?_, ?_, ?_⟩
  · rw [mqtt_callback_restart]
    dsimp only
    congr 1
    congr 1
    exact List.map_congr_left
      (fun (kc : String × MyAM43Callbacks) _ => onDisconnect_outs kc.2)
  · rw [mqtt_callback_restart]
    dsimp only
    rw [List.all_eq_true]
    intro kc hkc
    rcases List.mem_map.mp hkc with ⟨kc0, _, rfl⟩
    simp [onDisconnect]
  · rw [mqtt_callback_restart]
    dsimp only
    rw [List.all_eq_true]
    intro e he
    rcases List.mem_append.mp he with he | he
    · rcases List.mem_flatten.mp he with ⟨l, hl, hel⟩
      rcases List.mem_map.mp hl with ⟨kc0, _, rfl⟩
      rw [onDisconnect_outs] at hel
      rcases hb : hasConnectedBinding kc0.2 with _ | _ <;> rw [hb] at hel
      · simp at hel
      · simp at hel
        rcases hel with rfl | rfl | rfl <;> rfl
    · rcases List.mem_singleton.mp he with rfl
      rfl

/-- Claim C4: on the tick after a record is observed Disconnected, the loop
removes it from the registry — but the `AM43Client`/`MyAM43Callbacks` objects
allocated with `new` in `onResult` are never `delete`d, so the session object
stays allocated (a leak), contradicting the claim's "fully releases ... no
resource is leaked".  The run evaluates the code at the failing input:
`devA` discovered from boot, its transport then dropped. -/
theorem C4_session_leak :
    c4Disc.clients.length = 1
    ∧ (c4Disc.clients.map (fun kc => kc.2.client.m_Disconnected)) = [true]
    ∧ (am43UpdatePhase envD c4Disc).1.clients = []
    ∧ (am43UpdatePhase envD c4Disc).1.heapAlloc = [devA.devString] := by decide

/-- Claim C8, counterexample: the scan-start block of `loop` checks only the
60-second cadence and the OTA flag — with `scanning = true`, an elapsed
cadence and no OTA update, a new scan is started while one is already in
progress.  The boolean guard the claim invokes does not exist at the start
site. -/
theorem C8_counterexample :
    c8State.scanning = true ∧ (scanStartPhase 60001 c8State).2 = true := by decide

/-- Claim C8 as amended: a new scan is started exactly when more than 60000 ms
(32-bit `millis()` arithmetic) have elapsed since the last scan start and no
firmware update is active; the in-progress flag is set by the start and
cleared on completion, but it is not consulted by the start condition. -/
theorem C8_scan_start_amended (now : Nat) (st : SysState) :
    ((scanStartPhase now st).2 = true
      ↔ (60000 < u32sub now st.lastScan ∧ st.otaUpdating = false))
    ∧ (scanStartPhase now st).1.scanning = ((scanStartPhase now st).2 || st.scanning)
    ∧ (scanStartPhase now st).1.lastScan
        = (if (scanStartPhase now st).2 then now else st.lastScan)
    ∧ (bleScanComplete st).scanning = false := by
  unfold scanStartPhase scanDue initBLEScan bleScanComplete
  rcases hdue : decide (60000 < u32sub now st.lastScan) with _ | _ <;>
    rcases hota : st.otaUpdating with _ | _ <;>
      simp_all

theorem handle_no_session_connect (env : Env) (cbs : MyAM43Callbacks) :
    (handle env cbs).2.countP isSessionConnect = 0 := by
  rcases hm : cbs.mqtt with _ | b
  · simp [handle, hm]
  · simp only [handle, hm]
    split
    · simp [List.countP_cons, List.countP_nil, isSessionConnect]
    · split
      · simp
      · split <;>
          simp [List.countP_cons, List.countP_nil, isSessionConnect]

theorem driveStep_no_session_connect (env : Env) (k : String) (c : MyAM43Callbacks) :
    (driveStep env k c).2.countP isSessionConnect = 0 := by
  unfold driveStep
  split
  · simp [List.countP_cons, isSessionConnect, handle_no_session_connect]
  · simp

/-- Claim C5: one driver tick initiates at most one session connect — the
`break` after `connectToServer` guarantees it, whatever the registry
contents, the scan flag and the environment. -/
theorem C5_one_connect_per_tick (env : Env) (scanning : Bool)
    (cls : List (String × MyAM43Callbacks)) :
    ((drivePhase env scanning cls).outs.countP isSessionConnect) ≤ 1 := by
  induction cls with
  | nil => simp [drivePhase]
  | cons kc rest ih =>
      rcases kc with ⟨k, c⟩
      by_cases hdo : (c.client.m_DoConnect && !scanning) = true
      · simp [drivePhase, hdo, List.countP_cons, List.countP_nil, isSessionConnect]
      · simp only [drivePhase, hdo, Bool.false_eq_true, if_false]
        rw [List.countP_append, driveStep_no_session_connect]
        simpa using ih

theorem isAllowed_false_of_not_mem {allowList : List String} {a : String}
    (h1 : allowList ≠ []) (h2 : a ∉ allowList) :
    isAllowed allowList a = false := by
  unfold isAllowed
  rw [if_neg]
  · rw [List.any_eq_false]
    intro x hx hbeq
    rw [beq_iff_eq] at hbeq
    exact h2 (hbeq ▸ hx)
  · simp [Nat.lt_one_iff, List.length_eq_zero, h1]

theorem isAllowed_true_of_mem {allowList : List String} {a : String}
    (h : a ∈ allowList) : isAllowed allowList a = true := by
  unfold isAllowed
  split
  · rfl
  · exact List.any_eq_true.mpr ⟨a, h, by simp⟩

/-- Claim C7: with a non-empty allow-list, a discovery whose address is not
in the list never changes the registry, while a new AM43-advertising device
whose address is in the list is appended to it; an empty allow-list admits
every address. -/
theorem C7_allow_list (allowList : List String) (st : SysState)
    (d : BLEAdvertisedDevice) :
    (allowList ≠ [] → d.address ∉ allowList →
      (onResult allowList st d).1.clients = st.clients)
    ∧ (allowList ≠ [] → d.address ∈ allowList →
        (d.haveServiceUUID && d.advertisesAM43Service) = true →
        (getClients st).any (fun kc => kc.1 == d.devString) = false →
        ((onResult allowList st d).1.clients.map Prod.fst)
          = st.clients.map Prod.fst ++ [d.devString])
    ∧ (allowList = [] → isAllowed allowList d.address = true) := by
  refine ⟨?_, ?_, ?_⟩
  · intro h1 h2
    have hA := isAllowed_false_of_not_mem h1 h2
    unfold onResult
    split
    · split
      · rfl
      · rw [hA]
        simp
    · rfl
  · intro _ hmem hsvc hany
    have hT := isAllowed_true_of_mem hmem
    have hany' : (st.clients.any fun kc => kc.1 == d.devString) = false := hany
    simp [onResult, hsvc, hany', hT, getClients]
  · intro h
    subst h
    rfl

/-- Witness for C7 at concrete inputs: with allow-list `allow2`, discovering
`devC` (not listed) leaves the registry empty, discovering `devA` (listed)
registers it; the empty allow-list admits `devC`. -/
theorem C7_allow_list_witness :
    (onResult allow2 emptyState devC).1.clients = emptyState.clients
    ∧ ((onResult allow2 emptyState devA).1.clients.map Prod.fst)
        = emptyState.clients.map Prod.fst ++ [devA.devString]
    ∧ isAllowed [] devC.address = true :=
  ⟨(C7_allow_list allow2 emptyState devC).1 (by decide) (by decide),
   (C7_allow_list allow2 emptyState devA).2.1 (by decide) (by decide) (by decide) (by decide),
   (C7_allow_list [] emptyState devC).2.2 rfl⟩

theorem onResult_cases (allowList : List String) (st : SysState)
    (d : BLEAdvertisedDevice) :
    (onResult allowList st d).1 = st
    ∨ ((onResult allowList st d).1.clients.length = st.clients.length + 1
        ∧ (onResult allowList st d).1.scanStopped = true
        ∧ (onResult allowList st d).1.scanning = false) := by
  unfold onResult
  split
  · split
    · exact Or.inl rfl
    · split
      · exact Or.inl rfl
      · exact Or.inr (by simp)
  · exact Or.inl rfl

theorem runScan_stopped (allowList : List String) (st : SysState)
    (ds : List BLEAdvertisedDevice) (h : st.scanStopped = true) :
    runScan allowList st ds = st := by
  cases ds with
  | nil => rfl
  | cons d ds => simp [runScan, h]

theorem runScan_length (allowList : List String) (ds : List BLEAdvertisedDevice) :
    ∀ st : SysState, (runScan allowList st ds).clients.length ≤ st.clients.length + 1 := by
  induction ds with
  | nil => intro st; simp [runScan]
  | cons d ds ih =>
      intro st
      by_cases hs : st.scanStopped = true
      · rw [runScan_stopped allowList st (d :: ds) hs]
        exact Nat.le_succ _
      · simp only [runScan, if_neg hs]
        rcases onResult_cases allowList st d with h1 | ⟨h1, h2, _⟩
        · rw [h1]
          exact ih st
        · rw [runScan_stopped allowList _ ds h2, h1]

/-- Claim C10: a single scan invocation registers at most one new device —
the inserting `onResult` stops the scan (so no later advertisement of this
scan is delivered) and clears the `scanning` flag, and only an inserting
`onResult` does either. -/
theorem C10_one_registration_per_scan :
    (∀ (allowList : List String) (st : SysState) (ds : List BLEAdvertisedDevice),
       (runScan allowList st ds).clients.length ≤ st.clients.length + 1)
    ∧ (∀ (allowList : List String) (st : SysState) (d : BLEAdvertisedDevice),
       (onResult allowList st d).1.scanStopped
         = (decide (st.clients.length < (onResult allowList st d).1.clients.length)
             || st.scanStopped)
       ∧ (onResult allowList st d).1.scanning
         = (!(decide (st.clients.length < (onResult allowList st d).1.clients.length))
             && st.scanning)) := by
  constructor
  · intro allowList st ds
    exact runScan_length allowList ds st
  · intro allowList st d
    rcases onResult_cases allowList st d with h1 | ⟨h1, h2, h3⟩
    · rw [h1]
      simp
    · rw [h1, h2, h3]
      simp [Nat.lt_succ_self]

theorem lockOk_reg_replicate (d : Nat) (hd : 0 < d) (tr : List LockEv) :
    ∀ n, lockOk d (List.replicate n LockEv.reg ++ tr) = lockOk d tr := by
  intro n
  induction n with
  | zero => rfl
  | succ n ih => simp [List.replicate_succ, lockOk, hd, ih]

theorem lockOk_block_replicate (tr : List LockEv) :
    ∀ n, lockOk 0 (List.replicate n LockEv.blockingCall ++ tr) = lockOk 0 tr := by
  intro n
  induction n with
  | zero => rfl
  | succ n ih => simp [List.replicate_succ, lockOk, ih]

theorem lockOk_getClients (n : Nat) (tr : List LockEv) :
    lockOk 0 (getClientsTrace n ++ tr) = lockOk 0 tr := by
  simp only [getClientsTrace, List.cons_append, List.append_assoc]
  show lockOk 1 (List.replicate n LockEv.reg ++ ([LockEv.give] ++ tr)) = lockOk 0 tr
  rw [lockOk_reg_replicate 1 (by norm_num) _ n]
  simp [lockOk]

theorem lockOk_eraseSeq (tr : List LockEv) :
    ∀ r, lockOk 0
      (List.flatten (List.replicate r [LockEv.take, LockEv.reg, LockEv.give]) ++ tr)
      = lockOk 0 tr := by
  intro r
  induction r with
  | zero => rfl
  | succ r ih =>
      simp only [List.replicate_succ, List.flatten_cons, List.append_assoc,
        List.cons_append]
      simpa [lockOk] using ih

/-- Claim C6: each execution context of the sketch obeys the semaphore
discipline — every `allClients` access happens with the semaphore held, and
no potentially blocking session/bus/scanner call happens while it is held —
for any number of registry entries (`n`), blocking calls (`m`) and removals
(`r`). -/
theorem C6_lock_discipline (n m r : Nat) :
    lockOk 0 (getClientsTrace n) = true
    ∧ lockOk 0 (notifyCallbackTrace n) = true
    ∧ lockOk 0 (onResultInsertTrace n) = true
    ∧ lockOk 0 (mqttCallbackDispatchTrace n m) = true
    ∧ lockOk 0 (mqttCallbackRestartTrace n m) = true
    ∧ lockOk 0 (loopTickTrace n m r) = true := by
  have hblock : ∀ k, lockOk 0 (List.replicate k LockEv.blockingCall) = true := by
    intro k
    have h := lockOk_block_replicate [] k
    rw [List.append_nil] at h
    rw [h]
    rfl
  have herase : ∀ k, lockOk 0
      (List.flatten (List.replicate k [LockEv.take, LockEv.reg, LockEv.give])) = true := by
    intro k
    have h := lockOk_eraseSeq [] k
    rw [List.append_nil] at h
    rw [h]
    rfl
  refine ⟨?_, ?_, ?_, ?_, ?_, ?_⟩
  · have h := lockOk_getClients n []
    rw [List.append_nil] at h
    rw [h]
    rfl
  · rw [notifyCallbackTrace, lockOk_getClients]
    rfl
  · rw [onResultInsertTrace, lockOk_getClients]
    rfl
  · rw [mqttCallbackDispatchTrace, lockOk_getClients]
    exact hblock m
  · rw [mqttCallbackRestartTrace, List.append_assoc, lockOk_getClients,
      lockOk_block_replicate [LockEv.blockingCall] m]
    rfl
  · rw [loopTickTrace, List.append_assoc, lockOk_getClients,
      lockOk_block_replicate _ m]
    exact herase r

end AM43
